import Mathlib

/-!
# Verification of the lfg-bot registration/capacity subsystem

Shallow embedding of the registration ledger (`src/models/registration.py`),
the capacity-relevant part of the table catalog (`src/models/table.py`) and
the store they act on.  The SQLite store is modelled as explicit state: a
list of user ids, a list of table rows and a list of registration rows,
together with the next auto-assigned rowids.  Each model function becomes a
pure Lean function threading this state; a Python `raise` inside the
`get_db_connection` context manager triggers a rollback, so a raising call
leaves the store unchanged — accordingly fallible operations return
`Except`, and the error branch carries no new state.  Timestamps
(`created_at` / `updated_at`) and exception message strings are not needed
by any property below and are elided; exceptions are represented by one
constructor per distinct raise class.
-/

namespace LfgBot

/-- A row of the `tables` table (columns used by the modelled code).
`type` is the table kind string, `max_players` the seat limit. -/
structure Table where
  id : Int
  master_id : Int
  type : String
  game : String
  name : String
  max_players : Int
  description : Option String
  image : Option String
  num_sessions : Int
  active : Bool
deriving DecidableEq, Repr

/-- A row of the `registrations` table: the seat ledger.  `is_active`
distinguishes a currently occupied seat from one that was left. -/
structure Registration where
  id : Int
  table_id : Int
  user_id : Int
  is_active : Bool
deriving DecidableEq, Repr

/-- The relational store: existing user ids (the `users` table, of which
only row existence matters for the foreign keys here), table rows,
registration rows, and the next rowids SQLite would assign. -/
structure DB where
  users : List Int
  tables : List Table
  registrations : List Registration
  next_table_id : Int
  next_reg_id : Int
deriving DecidableEq, Repr

/-- `SELECT id, is_active FROM registrations WHERE table_id = ? AND user_id = ?`
with `fetchone`: the first row for the pair, if any. -/
def findRegistration (db : DB) (table_id user_id : Int) : Option Registration :=
  db.registrations.find? (fun r => r.table_id == table_id && r.user_id == user_id)

/-- `SELECT * FROM tables WHERE id = ?` with `fetchone`. -/
def findTable (db : DB) (table_id : Int) : Option Table :=
  db.tables.find? (fun t => t.id == table_id)

/-- All registration rows for a (table, user) pair, in row order. -/
def pairRows (db : DB) (table_id user_id : Int) : List Registration :=
  db.registrations.filter (fun r => r.table_id == table_id && r.user_id == user_id)

/-- The rows counted by the capacity queries: registrations of the table with
`is_active = 1`.  Both the `LEFT JOIN ... AND r.is_active = 1` count in
`create_registration` / `get_table_capacity_info` and the
`WHERE table_id = ? AND is_active = 1` count in `get_registrations_count`
denote the length of this list. -/
def activeRegs (db : DB) (table_id : Int) : List Registration :=
  db.registrations.filter (fun r => r.table_id == table_id && r.is_active)

/-- All registration rows of a table, active or not: the rows counted by
`get_table_with_player_count`'s `LEFT JOIN registrations` (no `is_active`
condition). -/
def allRegs (db : DB) (table_id : Int) : List Registration :=
  db.registrations.filter (fun r => r.table_id == table_id)

/-- Exceptions of `src/models/registration.py`, one constructor per raise
class (messages elided):
* `valueError` — Python `ValueError` for a non-positive id argument;
* `alreadyRegistered` — `RegistrationAlreadyExistsError`;
* `tableFull` — `TableFullError`;
* `registrationError` — the base `RegistrationError`, raised for a missing
  table ("Table {id} not found") and as the wrapper of a store
  `IntegrityError` ("Table {id} or User {id} does not exist"). -/
inductive RegistrationErr where
  | valueError
  | alreadyRegistered
  | tableFull
  | registrationError
deriving DecidableEq, Repr

/-- Exceptions of `src/models/table.py`:
* `invalidTableData` — `InvalidTableDataError` (validation failure);
* `tableError` — the base `TableError` wrapping a store `IntegrityError`
  ("Master with ID {id} does not exist");
* `tableNotFound` — `TableNotFoundError`. -/
inductive TableErr where
  | invalidTableData
  | tableError
  | tableNotFound
deriving DecidableEq, Repr

/-- The `INSERT INTO registrations (table_id, user_id, is_active) VALUES (?, ?, 1)`
statement: appends a fresh active row with the next rowid. -/
def insertRegistration (db : DB) (table_id user_id : Int) : DB :=
  { db with
    registrations := db.registrations ++
      [{ id := db.next_reg_id, table_id := table_id, user_id := user_id, is_active := true }],
    next_reg_id := db.next_reg_id + 1 }

/-- The `UPDATE registrations SET is_active = ? WHERE id = ?` statement. -/
def setActiveById (db : DB) (reg_id : Int) (b : Bool) : DB :=
  { db with registrations :=
      db.registrations.map (fun r => if r.id == reg_id then { r with is_active := b } else r) }

/-- `create_registration(table_id, user_id)` of `src/models/registration.py`:
validates the ids, looks up an existing row for the pair; an active row
raises `RegistrationAlreadyExistsError`, an inactive row is reactivated and
returned with `was_reactivated = true`; otherwise the active-seat count of
the table is compared against `max_players` (raising the base
`RegistrationError` when the capacity query returns no row, i.e. the table
does not exist, and `TableFullError` when the count has reached the limit)
and a new active row is inserted.  An `INSERT` hitting the `user_id`
foreign key raises `IntegrityError`, which the function wraps into the base
`RegistrationError`; the `table_id` foreign key cannot fire there because
the capacity query has already found the table. -/
def create_registration (db : DB) (table_id user_id : Int) :
    Except RegistrationErr ((Int × Bool) × DB) :=
  if table_id ≤ 0 then .error .valueError
  else if user_id ≤ 0 then .error .valueError
  else
    match findRegistration db table_id user_id with
    | some r =>
        if r.is_active then .error .alreadyRegistered
        else .ok ((r.id, true), setActiveById db r.id true)
    | none =>
        match findTable db table_id with
        | none => .error .registrationError
        | some t =>
            if t.max_players ≤ ((activeRegs db table_id).length : Int) then
              .error .tableFull
            else if user_id ∈ db.users then
              .ok ((db.next_reg_id, false), insertRegistration db table_id user_id)
            else .error .registrationError

/-- The row predicate of `unjoin_registration`'s UPDATE:
`WHERE table_id = ? AND user_id = ? AND is_active = 1`. -/
def unjoinMatch (table_id user_id : Int) (r : Registration) : Bool :=
  r.table_id == table_id && r.user_id == user_id && r.is_active

/-- `unjoin_registration(table_id, user_id)`: `UPDATE registrations SET
is_active = 0` on the matching active rows; returns `rowcount > 0`, i.e.
whether some row was actually flipped.  No domain exception is raised: a
missing or already-inactive registration is a `false` return. -/
def unjoin_registration (db : DB) (table_id user_id : Int) : Bool × DB :=
  (db.registrations.any (unjoinMatch table_id user_id),
   { db with registrations :=
       db.registrations.map (fun r =>
         if unjoinMatch table_id user_id r then { r with is_active := false } else r) })

/-- `get_registrations_count(table_id)`:
`SELECT COUNT(*) FROM registrations WHERE table_id = ? AND is_active = 1`. -/
def get_registrations_count (db : DB) (table_id : Int) : Nat :=
  (activeRegs db table_id).length

/-- `get_registration(table_id, user_id)`: the row for the pair with
`is_active = 1`, or `None`. -/
def get_registration (db : DB) (table_id user_id : Int) : Option Registration :=
  db.registrations.find?
    (fun r => r.table_id == table_id && r.user_id == user_id && r.is_active)

/-- `get_any_registration(table_id, user_id)`: the row for the pair
regardless of active status, or `None`. -/
def get_any_registration (db : DB) (table_id user_id : Int) : Option Registration :=
  db.registrations.find? (fun r => r.table_id == table_id && r.user_id == user_id)

/-- `is_user_registered`: convenience wrapper over `get_registration`. -/
def is_user_registered (db : DB) (table_id user_id : Int) : Bool :=
  (get_registration db table_id user_id).isSome

/-- The result dictionary of `get_table_capacity_info`.  `fill_percentage`
is held as a rational; Python's `round(x, 1)` on the float
`current / max * 100` is modelled as rounding `10 * x` to the nearest
integer and dividing by 10 (the tie-breaking mode differs from CPython's
float rounding only at exact half-tenths, which no property here touches). -/
structure CapacityInfo where
  max_players : Int
  current_players : Int
  available_spots : Int
  is_full : Bool
  fill_percentage : ℚ
deriving DecidableEq, Repr

/-- `round(x, 1)`: nearest multiple of `1/10`. -/
def roundTo1 (q : ℚ) : ℚ := (round (10 * q) : ℤ) / 10

/-- `get_table_capacity_info(table_id)` of `src/models/registration.py`:
the capacity query joins the table row with its active-registration count
(raising the base `RegistrationError` "Table {id} not found" when the
table is absent), then derives `available_spots = max_players - current`,
`is_full = current >= max_players` and the fill percentage, guarding the
division when `max_players` is not positive. -/
def get_table_capacity_info (db : DB) (table_id : Int) :
    Except RegistrationErr CapacityInfo :=
  match findTable db table_id with
  | none => .error .registrationError
  | some t =>
      let current : Int := ((activeRegs db table_id).length : Int)
      .ok { max_players := t.max_players
            current_players := current
            available_spots := t.max_players - current
            is_full := decide (t.max_players ≤ current)
            fill_percentage :=
              if 0 < t.max_players then
                roundTo1 ((current : ℚ) / (t.max_players : ℚ) * 100)
              else 0 }

/-- Python's `not name or not name.strip()`: true exactly when the name has
no non-whitespace character (the empty string included), i.e. stripping
leaves nothing. -/
def blankName (name : String) : Bool := name.data.all Char.isWhitespace

/-- `create_table(...)` of `src/models/table.py`: validates `master_id`
positive, `name` non-empty after stripping, `max_players > 0` and
`type ∈ {campaign, oneshot}`, raising `InvalidTableDataError` otherwise
with no insertion; then inserts the row.  The `master_id` foreign key of
the schema (spec §6: `tables.master_id → users.id`, enforced — the
migration SQL itself is outside `src/`) makes the insert raise
`IntegrityError` for an unknown master, which the function wraps into the
base `TableError`. -/
def create_table (db : DB) (master_id : Int) (type game name : String)
    (max_players : Int) (description image : Option String) (num_sessions : Int) :
    Except TableErr (Int × DB) :=
  if master_id ≤ 0 then .error .invalidTableData
  else if blankName name then .error .invalidTableData
  else if max_players ≤ 0 then .error .invalidTableData
  else if !(type == "campaign" || type == "oneshot") then .error .invalidTableData
  else if master_id ∈ db.users then
    .ok (db.next_table_id,
      { db with
        tables := db.tables ++
          [{ id := db.next_table_id, master_id := master_id, type := type, game := game,
             name := name, max_players := max_players, description := description,
             image := image, num_sessions := num_sessions, active := true }],
        next_table_id := db.next_table_id + 1 })
  else .error .tableError

/-- `get_table_with_player_count(table_id)` of `src/models/table.py`:
`SELECT t.*, COUNT(r.user_id) FROM tables t LEFT JOIN registrations r ON
t.id = r.table_id WHERE t.id = ? GROUP BY t.id` — note the join has no
`is_active` condition, so every registration row of the table is counted,
inactive ones included. -/
def get_table_with_player_count (db : DB) (table_id : Int) : Option (Table × Nat) :=
  match findTable db table_id with
  | none => none
  | some t => some (t, (allRegs db table_id).length)

/-- `is_table_full(table_id)` of `src/models/table.py`: raises
`TableNotFoundError` when the table is absent, else compares
`get_table_with_player_count`'s count (all rows, active or not) against
`max_players`. -/
def is_table_full (db : DB) (table_id : Int) : Except TableErr Bool :=
  match get_table_with_player_count db table_id with
  | none => .error .tableNotFound
  | some (t, c) => .ok (decide (t.max_players ≤ (c : Int)))

/-- A sequence of `create_registration` calls for the given users against
one table, each required to succeed (`none` as soon as one raises). -/
def joinList (table_id : Int) : DB → List Int → Option DB
  | db, [] => some db
  | db, u :: us =>
      match create_registration db table_id u with
      | .ok (_, db1) => joinList table_id db1 us
      | .error _ => none

/-! ### Toolkit lemmas about the store operations -/

theorem get_any_registration_head? (db : DB) (table_id user_id : Int) :
    get_any_registration db table_id user_id = (pairRows db table_id user_id).head? := by
  simp [get_any_registration, pairRows]

theorem findRegistration_head? (db : DB) (table_id user_id : Int) :
    findRegistration db table_id user_id = (pairRows db table_id user_id).head? := by
  simp [findRegistration, pairRows]

theorem find?_active_filter (table_id user_id : Int) (l : List Registration) :
    l.find? (fun r => r.table_id == table_id && r.user_id == user_id && r.is_active) =
      (l.filter (fun r => r.table_id == table_id && r.user_id == user_id)).find?
        (fun r => r.is_active) := by
  induction l with
  | nil => rfl
  | cons a l ih =>
    by_cases h1 : (a.table_id == table_id && a.user_id == user_id) = true
    · by_cases h2 : a.is_active
      · simp [List.find?_cons, List.filter_cons, h1, h2]
      · simp [List.find?_cons, List.filter_cons, h1, h2, ih]
    · simp [List.find?_cons, List.filter_cons, h1, ih]

theorem get_registration_pairRows (db : DB) (table_id user_id : Int) :
    get_registration db table_id user_id =
      (pairRows db table_id user_id).find? (fun r => r.is_active) :=
  find?_active_filter table_id user_id db.registrations

theorem findRegistration_none_iff (db : DB) (table_id user_id : Int) :
    findRegistration db table_id user_id = none ↔ pairRows db table_id user_id = [] := by
  simp [findRegistration, pairRows, List.find?_eq_none, List.filter_eq_nil_iff]

theorem findTable_congr {db db' : DB} (h : db'.tables = db.tables) (x : Int) :
    findTable db' x = findTable db x := by
  unfold findTable; rw [h]

theorem pairRows_insert (db : DB) (table_id user_id : Int) :
    pairRows (insertRegistration db table_id user_id) table_id user_id =
      pairRows db table_id user_id ++
        [{ id := db.next_reg_id, table_id := table_id, user_id := user_id, is_active := true }] := by
  simp [pairRows, insertRegistration]

theorem activeRegs_insert (db : DB) (table_id user_id : Int) :
    activeRegs (insertRegistration db table_id user_id) table_id =
      activeRegs db table_id ++
        [{ id := db.next_reg_id, table_id := table_id, user_id := user_id, is_active := true }] := by
  simp [activeRegs, insertRegistration]

theorem findRegistration_insert_ne (db : DB) (table_id user_id v : Int) (h : v ≠ user_id) :
    findRegistration (insertRegistration db table_id user_id) table_id v =
      findRegistration db table_id v := by
  simp [findRegistration, insertRegistration, List.find?_append,
    show ¬(user_id = v) from fun e => h e.symm]

theorem pairRows_setActive (db : DB) (i : Int) (b : Bool) (table_id user_id : Int) :
    pairRows (setActiveById db i b) table_id user_id =
      (pairRows db table_id user_id).map
        (fun r => if r.id == i then { r with is_active := b } else r) := by
  unfold pairRows setActiveById
  dsimp only
  rw [List.filter_map]
  congr 1
  apply List.filter_congr
  intro a _
  by_cases h : a.id = i <;> simp [h]

theorem pairRows_unjoin (db : DB) (table_id user_id : Int) :
    pairRows (unjoin_registration db table_id user_id).2 table_id user_id =
      (pairRows db table_id user_id).map
        (fun r => if r.is_active then { r with is_active := false } else r) := by
  unfold pairRows unjoin_registration
  dsimp only
  rw [List.filter_map]
  have hfilter :
      List.filter
        ((fun r : Registration => r.table_id == table_id && r.user_id == user_id) ∘
          (fun r => if unjoinMatch table_id user_id r then { r with is_active := false } else r))
        db.registrations =
      List.filter (fun r : Registration => r.table_id == table_id && r.user_id == user_id)
        db.registrations := by
    apply List.filter_congr
    intro a _
    by_cases h : unjoinMatch table_id user_id a <;> simp [h]
  rw [hfilter]
  apply List.map_congr_left
  intro a ha
  have hpair := (List.mem_filter.mp ha).2
  by_cases h2 : a.is_active
  · have : unjoinMatch table_id user_id a = true := by
      simp [unjoinMatch, Bool.and_eq_true] at hpair ⊢
      exact ⟨hpair, h2⟩
    simp [this, h2]
  · have : unjoinMatch table_id user_id a = false := by
      simp [unjoinMatch, h2]
    simp [this, h2]

theorem unjoin_noMatch (db : DB) (table_id user_id : Int) :
    ∀ r ∈ (unjoin_registration db table_id user_id).2.registrations,
      unjoinMatch table_id user_id r = false := by
  unfold unjoin_registration
  dsimp only
  intro r hr
  obtain ⟨a, _, rfl⟩ := List.mem_map.mp hr
  by_cases h : unjoinMatch table_id user_id a = true
  · rw [if_pos h]
    simp [unjoinMatch]
  · rw [if_neg h]
    simpa using h

theorem unjoin_unjoin (db : DB) (table_id user_id : Int) :
    unjoin_registration (unjoin_registration db table_id user_id).2 table_id user_id =
      (false, (unjoin_registration db table_id user_id).2) := by
  have hno := unjoin_noMatch db table_id user_id
  generalize (unjoin_registration db table_id user_id).2 = db2 at hno
  have hfst : (db2.registrations.any (unjoinMatch table_id user_id)) = false := by
    rw [List.any_eq_false]
    intro r hr
    simp [hno r hr]
  have hsnd : (db2.registrations.map
      (fun r => if unjoinMatch table_id user_id r then { r with is_active := false } else r)) =
      db2.registrations := by
    rw [List.map_congr_left (g := id), List.map_id]
    intro a ha
    simp [hno a ha]
  unfold unjoin_registration
  rw [hfst, hsnd]

theorem create_registration_reactivates (db : DB) (table_id user_id : Int) (r : Registration)
    (ht : 0 < table_id) (hu : 0 < user_id)
    (hfind : findRegistration db table_id user_id = some r)
    (hr : r.is_active = false) :
    create_registration db table_id user_id =
      .ok ((r.id, true), setActiveById db r.id true) := by
  unfold create_registration
  rw [if_neg (by omega), if_neg (by omega), hfind]
  simp [hr]

theorem create_registration_new (db : DB) (table_id user_id : Int) (t : Table)
    (ht : 0 < table_id) (hu : 0 < user_id)
    (hfind : findRegistration db table_id user_id = none)
    (htbl : findTable db table_id = some t)
    (hcap : ((activeRegs db table_id).length : Int) < t.max_players)
    (huser : user_id ∈ db.users) :
    create_registration db table_id user_id =
      .ok ((db.next_reg_id, false), insertRegistration db table_id user_id) := by
  unfold create_registration
  rw [if_neg (by omega), if_neg (by omega), hfind, htbl]
  simp [not_le.mpr hcap, huser]

theorem create_registration_full (db : DB) (table_id user_id : Int) (t : Table)
    (ht : 0 < table_id) (hu : 0 < user_id)
    (hfind : findRegistration db table_id user_id = none)
    (htbl : findTable db table_id = some t)
    (hcap : t.max_players ≤ ((activeRegs db table_id).length : Int)) :
    create_registration db table_id user_id = .error .tableFull := by
  unfold create_registration
  rw [if_neg (by omega), if_neg (by omega), hfind, htbl]
  simp [hcap]

theorem eq_singleton_of_mem_of_len_le_one {α : Type} {a : α} :
    ∀ {l : List α}, l.length ≤ 1 → a ∈ l → l = [a]
  | [], _, h => absurd h (by simp)
  | [x], _, h => by
      have : a = x := by simpa using h
      rw [this]
  | x :: y :: t, hl, _ => by
      have h2 := hl
      simp only [List.length_cons] at h2
      omega

theorem create_registration_ok_pair (db db1 : DB) (table_id user_id rid : Int) (b : Bool)
    (hp : (pairRows db table_id user_id).length ≤ 1)
    (h : create_registration db table_id user_id = .ok ((rid, b), db1)) :
    pairRows db1 table_id user_id =
      [{ id := rid, table_id := table_id, user_id := user_id, is_active := true }] := by
  unfold create_registration at h
  split at h
  · exact absurd h (by simp)
  split at h
  · exact absurd h (by simp)
  split at h
  case _ r heq =>
    -- an existing row was found
    split at h
    · exact absurd h (by simp)
    case _ hact =>
      simp only [Except.ok.injEq, Prod.mk.injEq] at h
      obtain ⟨⟨hid, -⟩, hdb⟩ := h
      unfold findRegistration at heq
      have hpred := List.find?_some heq
      have hmem := List.mem_of_find?_eq_some heq
      simp only [Bool.and_eq_true, beq_iff_eq] at hpred
      have hmemp : r ∈ pairRows db table_id user_id := by
        rw [pairRows, List.mem_filter]
        exact ⟨hmem, by simp [hpred.1, hpred.2]⟩
      have hsing := eq_singleton_of_mem_of_len_le_one hp hmemp
      rw [← hdb, pairRows_setActive, hsing]
      simp only [List.map_cons, List.map_nil]
      rw [if_pos (by simp)]
      have : r.is_active = false := by simpa using hact
      simp [hid, hpred.1, hpred.2]
  case _ heq =>
    -- no row for the pair: the insert path
    split at h
    · exact absurd h (by simp)
    split at h
    · exact absurd h (by simp)
    split at h
    case _ huser =>
      simp only [Except.ok.injEq, Prod.mk.injEq] at h
      obtain ⟨⟨hid, -⟩, hdb⟩ := h
      have hnil : pairRows db table_id user_id = [] :=
        (findRegistration_none_iff db table_id user_id).mp heq
      rw [← hdb, pairRows_insert, hnil, hid]
      simp
    · exact absurd h (by simp)

theorem activeRegs_nil_of_allRegs_nil (db : DB) (table_id : Int)
    (h : allRegs db table_id = []) : activeRegs db table_id = [] := by
  unfold allRegs at h
  unfold activeRegs
  rw [List.filter_eq_nil_iff] at h ⊢
  intro a ha hpa
  rw [Bool.and_eq_true] at hpa
  exact h a ha hpa.1

theorem findRegistration_none_of_allRegs_nil (db : DB) (table_id user_id : Int)
    (h : allRegs db table_id = []) : findRegistration db table_id user_id = none := by
  unfold allRegs at h
  unfold findRegistration
  rw [List.filter_eq_nil_iff] at h
  rw [List.find?_eq_none]
  intro x hx hpx
  rw [Bool.and_eq_true] at hpx
  exact h x hx hpx.1

/-- Joining a list of fresh, distinct, existing users one by one succeeds as
long as the table has room for all of them, and its effect on the ledger is
exactly `users.length` new active seats for the table. -/
theorem joinList_fills (table_id : Int) (t : Table) (users : List Int) :
    ∀ (db : DB),
      0 < table_id →
      findTable db table_id = some t →
      users.Nodup →
      (∀ u ∈ users, 0 < u ∧ u ∈ db.users ∧ findRegistration db table_id u = none) →
      ((activeRegs db table_id).length : Int) + users.length ≤ t.max_players →
      ∃ db', joinList table_id db users = some db' ∧
        (activeRegs db' table_id).length = (activeRegs db table_id).length + users.length ∧
        db'.tables = db.tables ∧ db'.users = db.users ∧
        ∀ v, v ∉ users → findRegistration db' table_id v = findRegistration db table_id v := by
  induction users with
  | nil =>
      intro db _ _ _ _ _
      exact ⟨db, rfl, by simp, rfl, rfl, fun v _ => rfl⟩
  | cons u us ih =>
      intro db htp htbl hnd hall hcap
      obtain ⟨hu0, humem, hufind⟩ := hall u (by simp)
      have hnotin : u ∉ us := (List.nodup_cons.mp hnd).1
      have hstep : create_registration db table_id u =
          .ok ((db.next_reg_id, false), insertRegistration db table_id u) :=
        create_registration_new db table_id u t htp hu0 hufind htbl
          (by simp only [List.length_cons] at hcap; push_cast at hcap ⊢; omega) humem
      have htbl1 : findTable (insertRegistration db table_id u) table_id = some t := htbl
      have hall1 : ∀ v ∈ us, 0 < v ∧ v ∈ (insertRegistration db table_id u).users ∧
          findRegistration (insertRegistration db table_id u) table_id v = none := by
        intro v hv
        obtain ⟨h0, hm, hf⟩ := hall v (by simp [hv])
        refine ⟨h0, hm, ?_⟩
        rw [findRegistration_insert_ne db table_id u v (fun e => hnotin (e ▸ hv))]
        exact hf
      have hcap1 : (((activeRegs (insertRegistration db table_id u) table_id).length : Int)
          + us.length) ≤ t.max_players := by
        rw [activeRegs_insert]
        simp only [List.length_append, List.length_cons, List.length_nil,
          List.length_cons] at hcap ⊢
        push_cast at hcap ⊢
        omega
      obtain ⟨db', hjoin, hlen, htb, hus, hpres⟩ :=
        ih (insertRegistration db table_id u) htp htbl1 (List.nodup_cons.mp hnd).2 hall1 hcap1
      refine ⟨db', ?_, ?_, ?_, ?_, ?_⟩
      · unfold joinList
        rw [hstep]
        exact hjoin
      · rw [hlen, activeRegs_insert]
        simp only [List.length_append, List.length_cons, List.length_nil]
        omega
      · exact htb
      · exact hus
      · intro v hv
        have hvne : v ≠ u := fun e => hv (by simp [e])
        have hvnotin : v ∉ us := fun m => hv (by simp [m])
        rw [hpres v hvnotin, findRegistration_insert_ne db table_id u v hvne]

/-! ### Concrete store fixtures for counterexamples and witnesses -/

/-- A valid oneshot table with id 1 owned by user 1, parametrised by its
seat limit. -/
def oneshotTable (max_players : Int) : Table :=
  { id := 1, master_id := 1, type := "oneshot", game := "g", name := "T",
    max_players := max_players, description := none, image := none,
    num_sessions := 0, active := true }

/-- A one-seat table that is full (user 1 holds the seat) while user 2
holds an inactive row from an earlier join/unjoin. -/
def exDBC1 : DB :=
  { users := [1, 2], tables := [oneshotTable 1],
    registrations := [{ id := 1, table_id := 1, user_id := 1, is_active := true },
                      { id := 2, table_id := 1, user_id := 2, is_active := false }],
    next_table_id := 2, next_reg_id := 3 }

/-! ### Claim C1 -/

/-- Claim C1 is false on the code: user 2 has an inactive row for table 1,
the table (max_players = 1) is already at capacity with user 1 seated, yet
`create_registration` reactivates user 2's row and succeeds instead of
failing with `TableFull` — the reactivation path performs no capacity
check. -/
theorem C1_counterexample :
    findRegistration exDBC1 1 2 =
      some { id := 2, table_id := 1, user_id := 2, is_active := false } ∧
    findTable exDBC1 1 = some (oneshotTable 1) ∧
    (oneshotTable 1).max_players ≤ ((activeRegs exDBC1 1).length : Int) ∧
    create_registration exDBC1 1 2 = .ok ((2, true), setActiveById exDBC1 2 true) ∧
    create_registration exDBC1 1 2 ≠ .error .tableFull := by
  have hok : create_registration exDBC1 1 2 =
      .ok ((2, true), setActiveById exDBC1 2 true) := rfl
  exact ⟨by decide, by decide, by decide, hok,
    fun h => Except.noConfusion (hok.symm.trans h)⟩

/-- Claim C1 as amended: for every (table, user) pair with an existing
inactive registration row, `create_registration` flips the row's is_active
to true and returns (registration_id, reactivated = true) unconditionally —
no active-seat count is computed and `TableFull` is never raised on this
path, even when the table's active seats already reach max_players. -/
theorem C1_reactivates_unconditionally (db : DB) (table_id user_id : Int) (r : Registration)
    (ht : 0 < table_id) (hu : 0 < user_id)
    (hfind : findRegistration db table_id user_id = some r)
    (hr : r.is_active = false) :
    create_registration db table_id user_id =
      .ok ((r.id, true), setActiveById db r.id true) :=
  create_registration_reactivates db table_id user_id r ht hu hfind hr

/-- Witness for C1: the amended theorem applied to the concrete full table
of the counterexample. -/
theorem C1_witness :
    (0 : Int) < 1 ∧ (0 : Int) < 2 ∧
    findRegistration exDBC1 1 2 =
      some { id := 2, table_id := 1, user_id := 2, is_active := false } ∧
    create_registration exDBC1 1 2 = .ok ((2, true), setActiveById exDBC1 2 true) :=
  ⟨by decide, by decide, by decide,
    C1_reactivates_unconditionally exDBC1 1 2
      { id := 2, table_id := 1, user_id := 2, is_active := false }
      (by decide) (by decide) (by decide) (by decide)⟩

/-! ### Claim C2 -/

/-- Claim C2: on a table with max_players = N and no registration rows at
all, after N successful `create_registration` calls from N distinct users
an (N+1)-th call from a fresh distinct user fails with `TableFull`, and
`get_registrations_count` returns N (the failed call raises inside the
connection context, so the store is rolled back unchanged — in the model
the error branch carries no state, so the count is N both before and after
the failed call). -/
theorem C2_capacity_enforced (db db' : DB) (t : Table) (users : List Int) (fresh : Int)
    (htid : 0 < t.id)
    (htbl : findTable db t.id = some t)
    (hN : t.max_players = (users.length : Int))
    (hempty : allRegs db t.id = [])
    (hnd : (fresh :: users).Nodup)
    (hpos : ∀ u ∈ fresh :: users, 0 < u)
    (hmem : ∀ u ∈ fresh :: users, u ∈ db.users)
    (hjoin : joinList t.id db users = some db') :
    create_registration db' t.id fresh = .error .tableFull ∧
    get_registrations_count db' t.id = users.length := by
  have hall : ∀ u ∈ users, 0 < u ∧ u ∈ db.users ∧ findRegistration db t.id u = none := by
    intro u hu
    exact ⟨hpos u (by simp [hu]), hmem u (by simp [hu]),
      findRegistration_none_of_allRegs_nil db t.id u hempty⟩
  have hzero : activeRegs db t.id = [] := activeRegs_nil_of_allRegs_nil db t.id hempty
  have hcap : ((activeRegs db t.id).length : Int) + users.length ≤ t.max_players := by
    rw [hzero, hN]
    simp
  obtain ⟨db'', hj, hlen, htb, hus, hpres⟩ :=
    joinList_fills t.id t users db htid htbl (List.nodup_cons.mp hnd).2 hall hcap
  rw [hj] at hjoin
  obtain rfl : db'' = db' := by injection hjoin
  have hfreshnot : fresh ∉ users := (List.nodup_cons.mp hnd).1
  have hfind' : findRegistration db'' t.id fresh = none := by
    rw [hpres fresh hfreshnot]
    exact findRegistration_none_of_allRegs_nil db t.id fresh hempty
  have htbl' : findTable db'' t.id = some t := by
    rw [findTable_congr htb]
    exact htbl
  have hlen' : (activeRegs db'' t.id).length = users.length := by
    rw [hlen, hzero]
    simp
  constructor
  · apply create_registration_full db'' t.id fresh t htid (hpos fresh (by simp)) hfind' htbl'
    rw [hlen', hN]
  · exact hlen'

/-- The empty two-seat table of C2's witness, with three known users. -/
def exDBC2 : DB :=
  { users := [1, 2, 3], tables := [oneshotTable 2], registrations := [],
    next_table_id := 2, next_reg_id := 1 }

/-- The store after users 1 and 2 have filled `exDBC2`'s table. -/
def exDBC2' : DB :=
  { users := [1, 2, 3], tables := [oneshotTable 2],
    registrations := [{ id := 1, table_id := 1, user_id := 1, is_active := true },
                      { id := 2, table_id := 1, user_id := 2, is_active := true }],
    next_table_id := 2, next_reg_id := 3 }

/-- Witness for C2: users 1 and 2 fill the two-seat table, user 3 then
receives `TableFull` and the active count stays 2. -/
theorem C2_witness :
    joinList (oneshotTable 2).id exDBC2 [1, 2] = some exDBC2' ∧
    create_registration exDBC2' (oneshotTable 2).id 3 = .error .tableFull ∧
    get_registrations_count exDBC2' (oneshotTable 2).id = [1, 2].length :=
  ⟨by decide,
    C2_capacity_enforced exDBC2 exDBC2' (oneshotTable 2) [1, 2] 3
      (by decide) (by decide) (by decide) (by decide) (by decide) (by decide)
      (by decide) (by decide)⟩

/-! ### Claim C4 -/

/-- Claim C4: join, unjoin, join again on one (table, user) pair.  After a
successful first join the ledger holds exactly one row for the pair (active,
with the returned id); the unjoin flips that same row; the second join
returns the same registration id with reactivated = true; and after every
step the pair still has exactly that single row — no duplicate is ever
inserted.  The hypothesis `hp` is the store invariant (unique constraint on
(table_id, user_id)) that at most one row exists for the pair beforehand. -/
theorem C4_rejoin_reuses_row (db db1 : DB) (table_id user_id rid : Int) (b : Bool)
    (ht : 0 < table_id) (hu : 0 < user_id)
    (hp : (pairRows db table_id user_id).length ≤ 1)
    (h1 : create_registration db table_id user_id = .ok ((rid, b), db1)) :
    pairRows db1 table_id user_id =
      [{ id := rid, table_id := table_id, user_id := user_id, is_active := true }] ∧
    (unjoin_registration db1 table_id user_id).1 = true ∧
    pairRows (unjoin_registration db1 table_id user_id).2 table_id user_id =
      [{ id := rid, table_id := table_id, user_id := user_id, is_active := false }] ∧
    create_registration (unjoin_registration db1 table_id user_id).2 table_id user_id =
      .ok ((rid, true),
        setActiveById (unjoin_registration db1 table_id user_id).2 rid true) ∧
    pairRows (setActiveById (unjoin_registration db1 table_id user_id).2 rid true)
        table_id user_id =
      [{ id := rid, table_id := table_id, user_id := user_id, is_active := true }] := by
  have hpair1 := create_registration_ok_pair db db1 table_id user_id rid b hp h1
  have hmem :
      ({ id := rid, table_id := table_id, user_id := user_id, is_active := true } :
        Registration) ∈ db1.registrations := by
    have hm :
        ({ id := rid, table_id := table_id, user_id := user_id, is_active := true } :
          Registration) ∈ pairRows db1 table_id user_id := by
      rw [hpair1]
      simp
    unfold pairRows at hm
    exact List.mem_of_mem_filter hm
  have hfst : (unjoin_registration db1 table_id user_id).1 = true := by
    show db1.registrations.any (unjoinMatch table_id user_id) = true
    rw [List.any_eq_true]
    exact ⟨_, hmem, by simp [unjoinMatch]⟩
  have hpair2 : pairRows (unjoin_registration db1 table_id user_id).2 table_id user_id =
      [{ id := rid, table_id := table_id, user_id := user_id, is_active := false }] := by
    rw [pairRows_unjoin, hpair1]
    simp
  have hfind2 : findRegistration (unjoin_registration db1 table_id user_id).2
      table_id user_id =
      some { id := rid, table_id := table_id, user_id := user_id, is_active := false } := by
    rw [findRegistration_head?, hpair2]
    rfl
  have hcreate2 := create_registration_reactivates
    (unjoin_registration db1 table_id user_id).2 table_id user_id
    { id := rid, table_id := table_id, user_id := user_id, is_active := false }
    ht hu hfind2 rfl
  have hpair3 : pairRows (setActiveById (unjoin_registration db1 table_id user_id).2 rid true)
      table_id user_id =
      [{ id := rid, table_id := table_id, user_id := user_id, is_active := true }] := by
    rw [pairRows_setActive, hpair2]
    simp
  exact ⟨hpair1, hfst, hpair2, hcreate2, hpair3⟩

/-- The store after user 1 joins the empty two-seat table of `exDBC2`. -/
def exDBC4b : DB :=
  { users := [1, 2, 3], tables := [oneshotTable 2],
    registrations := [{ id := 1, table_id := 1, user_id := 1, is_active := true }],
    next_table_id := 2, next_reg_id := 2 }

/-- Witness for C4: the join/unjoin/join round trip of user 1 on the
concrete two-seat table. -/
theorem C4_witness :
    ((0 : Int) < 1 ∧ (pairRows exDBC2 1 1).length ≤ 1 ∧
      create_registration exDBC2 1 1 = .ok ((1, false), exDBC4b)) ∧
    (pairRows exDBC4b 1 1 =
        [{ id := 1, table_id := 1, user_id := 1, is_active := true }] ∧
      (unjoin_registration exDBC4b 1 1).1 = true ∧
      pairRows (unjoin_registration exDBC4b 1 1).2 1 1 =
        [{ id := 1, table_id := 1, user_id := 1, is_active := false }] ∧
      create_registration (unjoin_registration exDBC4b 1 1).2 1 1 =
        .ok ((1, true), setActiveById (unjoin_registration exDBC4b 1 1).2 1 true) ∧
      pairRows (setActiveById (unjoin_registration exDBC4b 1 1).2 1 true) 1 1 =
        [{ id := 1, table_id := 1, user_id := 1, is_active := true }]) :=
  ⟨⟨by decide, by decide, rfl⟩,
    C4_rejoin_reuses_row exDBC2 exDBC4b 1 1 1 false (by decide) (by decide) (by decide) rfl⟩

/-! ### Claim C5 -/

/-- Claim C5: `unjoin_registration` returns true exactly when the store held
an active registration row for the pair (which it flips to inactive), and a
second consecutive unjoin returns false without raising — the model's pair
result is total, mirroring that the source raises no domain exception here —
and leaves the store, hence the table's active registration count, exactly
as after the first call. -/
theorem C5_unjoin_idempotent (db : DB) (table_id user_id : Int) :
    ((unjoin_registration db table_id user_id).1 = true ↔
      ∃ r, r ∈ db.registrations ∧ r.table_id = table_id ∧ r.user_id = user_id ∧
        r.is_active = true) ∧
    unjoin_registration (unjoin_registration db table_id user_id).2 table_id user_id =
      (false, (unjoin_registration db table_id user_id).2) ∧
    get_registrations_count
        (unjoin_registration (unjoin_registration db table_id user_id).2 table_id user_id).2
        table_id =
      get_registrations_count (unjoin_registration db table_id user_id).2 table_id := by
  refine ⟨?_, unjoin_unjoin db table_id user_id, ?_⟩
  · show db.registrations.any (unjoinMatch table_id user_id) = true ↔ _
    simp [List.any_eq_true, unjoinMatch, Bool.and_eq_true, beq_iff_eq, and_assoc]
  · rw [unjoin_unjoin db table_id user_id]

/-! ### Claim C6 -/

/-- Claim C6: after a join followed by an unjoin, `get_any_registration`
still returns the pair's row, now with is_active = false, while
`get_registration` returns none; and in general `get_registration` yields
the pair's row only when it is active whereas `get_any_registration` yields
the first row for the pair regardless of its active state. -/
theorem C6_lookup_active_vs_any (db db1 : DB) (table_id user_id rid : Int) (b : Bool)
    (ht : 0 < table_id) (hu : 0 < user_id)
    (hp : (pairRows db table_id user_id).length ≤ 1)
    (h1 : create_registration db table_id user_id = .ok ((rid, b), db1)) :
    get_any_registration (unjoin_registration db1 table_id user_id).2 table_id user_id =
      some { id := rid, table_id := table_id, user_id := user_id, is_active := false } ∧
    get_registration (unjoin_registration db1 table_id user_id).2 table_id user_id = none ∧
    (∀ (d : DB) (x y : Int),
      get_registration d x y = (pairRows d x y).find? (fun r => r.is_active)) ∧
    (∀ (d : DB) (x y : Int), get_any_registration d x y = (pairRows d x y).head?) := by
  have hpair1 := create_registration_ok_pair db db1 table_id user_id rid b hp h1
  have hpair2 : pairRows (unjoin_registration db1 table_id user_id).2 table_id user_id =
      [{ id := rid, table_id := table_id, user_id := user_id, is_active := false }] := by
    rw [pairRows_unjoin, hpair1]
    simp
  refine ⟨?_, ?_, get_registration_pairRows, get_any_registration_head?⟩
  · rw [get_any_registration_head?, hpair2]
    rfl
  · rw [get_registration_pairRows, hpair2]
    rfl

/-- Witness for C6: the concrete join/unjoin of user 1 on the two-seat
table, after which only the inactive row is visible to
`get_any_registration`. -/
theorem C6_witness :
    ((0 : Int) < 1 ∧ (pairRows exDBC2 1 1).length ≤ 1 ∧
      create_registration exDBC2 1 1 = .ok ((1, false), exDBC4b)) ∧
    (get_any_registration (unjoin_registration exDBC4b 1 1).2 1 1 =
        some { id := 1, table_id := 1, user_id := 1, is_active := false } ∧
      get_registration (unjoin_registration exDBC4b 1 1).2 1 1 = none ∧
      (∀ (d : DB) (x y : Int),
        get_registration d x y = (pairRows d x y).find? (fun r => r.is_active)) ∧
      (∀ (d : DB) (x y : Int), get_any_registration d x y = (pairRows d x y).head?)) :=
  ⟨⟨by decide, by decide, rfl⟩,
    C6_lookup_active_vs_any exDBC2 exDBC4b 1 1 1 false
      (by decide) (by decide) (by decide) rfl⟩

/-! ### Claim C7 -/

/-- A five-seat table with two active registrations (users 1, 2) and one
inactive row (user 3) — the inactive row must not count. -/
def exDBC7 : DB :=
  { users := [1, 2, 3], tables := [oneshotTable 5],
    registrations := [{ id := 1, table_id := 1, user_id := 1, is_active := true },
                      { id := 2, table_id := 1, user_id := 2, is_active := true },
                      { id := 3, table_id := 1, user_id := 3, is_active := false }],
    next_table_id := 2, next_reg_id := 4 }

/-- Claim C7: for every existing table, `get_table_capacity_info` returns
max_players, the active-registration count as current_players, available
spots as their difference, is_full as current ≥ max, and the fill
percentage rounded to one decimal with the division guarded for
max_players ≤ 0; on the concrete five-seat table with two active seats it
yields {current_players: 2, available_spots: 3, is_full: false,
fill_percentage: 40.0}. -/
theorem C7_capacity_info (db : DB) (table_id : Int) (t : Table)
    (htbl : findTable db table_id = some t) :
    get_table_capacity_info db table_id =
      .ok { max_players := t.max_players
            current_players := (get_registrations_count db table_id : Int)
            available_spots := t.max_players - (get_registrations_count db table_id : Int)
            is_full := decide (t.max_players ≤ (get_registrations_count db table_id : Int))
            fill_percentage :=
              if 0 < t.max_players then
                roundTo1 (((get_registrations_count db table_id : Int) : ℚ) /
                  (t.max_players : ℚ) * 100)
              else 0 } ∧
    get_table_capacity_info exDBC7 1 =
      .ok { max_players := 5, current_players := 2, available_spots := 3,
            is_full := false, fill_percentage := 40 } := by
  constructor
  · simp [get_table_capacity_info, htbl, get_registrations_count]
  · have h : findTable exDBC7 1 = some (oneshotTable 5) := by decide
    have hlen : ((activeRegs exDBC7 1).length : Int) = 2 := by decide
    simp only [get_table_capacity_info, h, hlen]
    norm_num [oneshotTable, roundTo1]

/-- Witness for C7: the general capacity equation applied to the concrete
five-seat table. -/
theorem C7_witness :
    findTable exDBC7 1 = some (oneshotTable 5) ∧
    get_table_capacity_info exDBC7 1 =
      .ok { max_players := (oneshotTable 5).max_players
            current_players := (get_registrations_count exDBC7 1 : Int)
            available_spots :=
              (oneshotTable 5).max_players - (get_registrations_count exDBC7 1 : Int)
            is_full :=
              decide ((oneshotTable 5).max_players ≤ (get_registrations_count exDBC7 1 : Int))
            fill_percentage :=
              if 0 < (oneshotTable 5).max_players then
                roundTo1 (((get_registrations_count exDBC7 1 : Int) : ℚ) /
                  ((oneshotTable 5).max_players : ℚ) * 100)
              else 0 } :=
  ⟨by decide, (C7_capacity_info exDBC7 1 (oneshotTable 5) (by decide)).1⟩

/-! ### Claim C8 -/

/-- Recognises an `InvalidTableDataError` outcome of `create_table`. -/
def isInvalidDataError : Except TableErr (Int × DB) → Bool
  | .error .invalidTableData => true
  | _ => false

/-- A store with known user 1 and no tables. -/
def exDBC8 : DB :=
  { users := [1], tables := [], registrations := [],
    next_table_id := 1, next_reg_id := 1 }

/-- Claim C8 is false on the code: the kind "one_shot" belongs to the
claim's valid set {one_shot, campaign}, the name is non-empty and
max_players is positive, yet `create_table` rejects the input with
`InvalidTableDataError` — the code's valid set is {campaign, oneshot}
(no underscore). -/
theorem C8_counterexample :
    blankName "T" = false ∧ (0 : Int) < 3 ∧ "one_shot" ∈ ["one_shot", "campaign"] ∧
    (0 : Int) < 1 ∧ (1 : Int) ∈ exDBC8.users ∧
    create_table exDBC8 1 "one_shot" "g" "T" 3 none none 0 = .error .invalidTableData :=
  ⟨by decide, by decide, by decide, by decide, by decide, rfl⟩

/-- Claim C8 as amended: `create_table` fails with `InvalidTableData`
exactly when master_id is not positive, the name is empty after stripping,
max_players is not positive, or the kind is not in {campaign, oneshot}
(the code's spelling, without underscore); performing no insertion in that
case (the model's error branch carries no store).  When the input is valid
but master_id references no existing user, it fails with the wrapped
foreign-key error (`TableError`, the spec's ReferenceNotFound).  In
particular max_players = 0 fails with `InvalidTableData`. -/
theorem C8_create_table_validation (db : DB) (master_id : Int) (type game name : String)
    (max_players : Int) (description image : Option String) (num_sessions : Int) :
    (isInvalidDataError
        (create_table db master_id type game name max_players description image num_sessions) =
        true ↔
      (master_id ≤ 0 ∨ blankName name = true ∨ max_players ≤ 0 ∨
        (type ≠ "campaign" ∧ type ≠ "oneshot"))) ∧
    (0 < master_id → blankName name = false → 0 < max_players →
      (type = "campaign" ∨ type = "oneshot") → master_id ∉ db.users →
      create_table db master_id type game name max_players description image num_sessions =
        .error .tableError) ∧
    (max_players = 0 →
      isInvalidDataError
        (create_table db master_id type game name max_players description image num_sessions) =
        true) := by
  refine ⟨?_, ?_, ?_⟩
  · unfold create_table
    split_ifs with h1 h2 h3 h4 h5 <;>
      simp_all [isInvalidDataError, beq_iff_eq]
  · intro hm hn hp htype hnotin
    unfold create_table
    split_ifs with h1 h2 h3 h4 h5 <;> first
      | rfl
      | omega
      | simp_all [beq_iff_eq]
  · intro h0
    unfold create_table
    split_ifs with h1 h2 h3 h4 h5 <;> first
      | omega
      | simp [isInvalidDataError]

/-- Witness for C8: the foreign-key branch of the amended theorem at a
master id (9) that exists in no user row. -/
theorem C8_witness :
    ((0 : Int) < 3 ∧ blankName "T" = false ∧ (9 : Int) ∉ exDBC8.users) ∧
    create_table exDBC8 9 "oneshot" "g" "T" 3 none none 0 = .error .tableError :=
  ⟨⟨by decide, by decide, by decide⟩,
    (C8_create_table_validation exDBC8 9 "oneshot" "g" "T" 3 none none 0).2.1
      (by decide) (by decide) (by decide) (by decide) (by decide)⟩

/-! ### Claim C9 -/

/-- Claim C9: `create_registration` against a table id that exists in no
table row (and with no registration row for the pair, as the enforced
foreign keys guarantee) fails with the base `RegistrationError`
("Table {id} not found") — a domain error of the model taxonomy, never a
raw sqlite exception — and, raising inside the connection context, inserts
nothing (the model's error branch carries no store).  The positivity
hypotheses are the spec's preconditions; non-positive ids are rejected
earlier as `ValueError` (spec `ValidationError`). -/
theorem C9_missing_table_domain_error (db : DB) (table_id user_id : Int)
    (ht : 0 < table_id) (hu : 0 < user_id)
    (htbl : findTable db table_id = none)
    (hreg : findRegistration db table_id user_id = none) :
    create_registration db table_id user_id = .error .registrationError := by
  unfold create_registration
  rw [if_neg (by omega), if_neg (by omega), hreg, htbl]

/-- Witness for C9: joining table 7, which does not exist in `exDBC8`. -/
theorem C9_witness :
    ((0 : Int) < 7 ∧ (0 : Int) < 1 ∧ findTable exDBC8 7 = none ∧
      findRegistration exDBC8 7 1 = none) ∧
    create_registration exDBC8 7 1 = .error .registrationError :=
  ⟨⟨by decide, by decide, by decide, by decide⟩,
    C9_missing_table_domain_error exDBC8 7 1 (by decide) (by decide) (by decide) (by decide)⟩

/-! ### Claim C10 -/

/-- An empty one-seat table with users 1 and 2. -/
def exDBC10 : DB :=
  { users := [1, 2], tables := [oneshotTable 1], registrations := [],
    next_table_id := 2, next_reg_id := 1 }

/-- `exDBC10` after user 1 joins. -/
def exDBC10a : DB :=
  { users := [1, 2], tables := [oneshotTable 1],
    registrations := [{ id := 1, table_id := 1, user_id := 1, is_active := true }],
    next_table_id := 2, next_reg_id := 2 }

/-- `exDBC10a` after user 1 unjoins: one inactive row remains. -/
def exDBC10b : DB :=
  { users := [1, 2], tables := [oneshotTable 1],
    registrations := [{ id := 1, table_id := 1, user_id := 1, is_active := false }],
    next_table_id := 2, next_reg_id := 2 }

/-- Claim C10: `is_table_full` (via `get_table_with_player_count`) counts
every registration row of the table regardless of is_active, so for an
existing table it reports full exactly when that total reaches max_players;
concretely, after join then unjoin on a one-seat table it still reports
full while `get_registrations_count` is 0 and `get_table_capacity_info`
reports is_full = false. -/
theorem C10_full_counts_inactive_rows (db : DB) (table_id : Int) (t : Table)
    (htbl : findTable db table_id = some t) :
    is_table_full db table_id =
      .ok (decide (t.max_players ≤ ((allRegs db table_id).length : Int))) ∧
    create_registration exDBC10 1 1 = .ok ((1, false), exDBC10a) ∧
    unjoin_registration exDBC10a 1 1 = (true, exDBC10b) ∧
    is_table_full exDBC10b 1 = .ok true ∧
    get_registrations_count exDBC10b 1 = 0 ∧
    (get_table_capacity_info exDBC10b 1).map (fun c => c.is_full) = .ok false := by
  refine ⟨?_, rfl, by decide, rfl, by decide, rfl⟩
  unfold is_table_full get_table_with_player_count
  rw [htbl]

/-- Witness for C10: the count-all-rows equation applied to the
joined-then-left one-seat table. -/
theorem C10_witness :
    findTable exDBC10b 1 = some (oneshotTable 1) ∧
    is_table_full exDBC10b 1 =
      .ok (decide ((oneshotTable 1).max_players ≤ ((allRegs exDBC10b 1).length : Int))) :=
  ⟨by decide, (C10_full_counts_inactive_rows exDBC10b 1 (oneshotTable 1) (by decide)).1⟩

end LfgBot
